import Mathlib

/-!
Verification of the task-planning core of the silhouette-workflow-creation
repository against its natural-language specification.

The main embedded component is the DAG planner
(backend/src/enterprise-agents/planner/main.py): the objective analyzer,
the DAG generator (task templates, dependency heuristics, execution-order
levels, critical path, parallelization, total duration), and the
plan-creation service, plus the orchestrator's duration estimator
(backend/src/enterprise-agents/orchestrator/main.py).

Modelling conventions:
- uuid4 task ids are modelled as the task's index in generation order
  (uuid4 only guarantees freshness/distinctness, which indices give);
- Python dict lookups that can raise KeyError / IndexError, and library
  calls that can raise, are modelled with Option (none = exception);
- float arithmetic: the code multiplies integer durations by the float
  constants 0.7 / 0.9 / 1.0 / 1.2 / 1.4 and truncates with int().  Every
  product reachable from the embedded call sites was checked against
  IEEE-754 double semantics and the exact values used here agree with the
  Python results (the one place where IEEE and exact rational truncation
  differ on a reachable input, int(90 * 0.7) = 62, is modelled explicitly);
- payload dictionaries (inputs / outputs / metadata / event payloads) and
  free-text outputs (risk factors, optimization suggestions) carry no
  information any claim refers to and are elided from the structures.
-/

namespace Planner

/-- Task node of the generated DAG (planner/main.py, class TaskNode).
Fields inputs, outputs and metadata are payload dicts elided from the
model; task ids are generation-order indices standing in for uuid4. -/
structure TaskNode where
  task_id : Nat
  task_name : String
  task_type : String
  dependencies : List Nat
  estimated_duration : Nat
  assigned_team : String
  priority : Nat
  deriving Repr, DecidableEq, Inhabited

/-- The part of ObjectiveAnalyzer.analyze_objective's result that the DAG
generator reads: task_types and complexity.  The analyzer also returns
plan_type, key_concepts and estimated_phases, but plan selection uses the
request's plan_type (PlannerService.create_plan line 917) and key_concepts
flow only into the elided inputs payload, so those fields are dropped. -/
structure Analysis where
  task_types : List String
  complexity : String
  deriving Repr, DecidableEq, Inhabited

/-- DAGGenerator.team_capabilities (planner/main.py lines 388-414):
team name mapped to (capabilities, response_time, max_concurrent). -/
def team_capabilities : List (String × List String × Nat × Nat) :=
  [ ("vision_computational",
      (["computer_vision", "image_analysis", "visual_reasoning"], 30, 10)),
    ("creative_design",
      (["design_generation", "creative_writing", "brand_development"], 45, 8)),
    ("business_automation",
      (["workflow_automation", "process_optimization", "data_analysis"], 60, 15)),
    ("healthcare_specialists",
      (["medical_diagnosis", "clinical_reasoning", "healthcare_analytics"], 90, 5)),
    ("marketing_creatives",
      (["brand_strategy", "content_creation", "social_media"], 40, 12)) ]

/-- The team identifiers known to the static capability table. -/
def team_names : List String := team_capabilities.map (·.1)

/-- DAGGenerator.map_task_type_to_team's mapping dict (lines 835-849). -/
def task_type_team_mapping : List (String × String) :=
  [ ("computer_vision", "vision_computational"),
    ("image_analysis", "vision_computational"),
    ("design_generation", "creative_design"),
    ("brand_development", "creative_design"),
    ("workflow_automation", "business_automation"),
    ("process_optimization", "business_automation"),
    ("data_analysis", "business_automation"),
    ("medical_diagnosis", "healthcare_specialists"),
    ("clinical_reasoning", "healthcare_specialists"),
    ("content_creation", "marketing_creatives"),
    ("social_media", "marketing_creatives"),
    ("analysis", "business_automation"),
    ("development", "business_automation") ]

/-- DAGGenerator.map_task_type_to_team: dict .get with default team
business_automation (lines 833-851). -/
def map_task_type_to_team (task_type : String) : String :=
  ((task_type_team_mapping.find? (fun p => p.1 == task_type)).map (·.2)).getD
    "business_automation"

/-- The workflow template (generate_workflow_tasks, lines 488-519):
(name, type, base duration) per phase. -/
def workflow_sequence : List (String × String × Nat) :=
  [ ("Requirements Gathering", ("analysis", 20)),
    ("Process Analysis", ("analysis", 30)),
    ("Workflow Design", ("workflow", 45)),
    ("Implementation", ("workflow", 60)),
    ("Testing & Validation", ("analysis", 30)) ]

/-- DAGGenerator.generate_workflow_tasks (lines 478-540).  The analysis
argument is read (task_types) but never used; in particular the template
durations are taken verbatim, with no complexity multiplier, and
priority = max(1, 6 - i). -/
def generate_workflow_tasks (_a : Analysis) : List TaskNode :=
  workflow_sequence.enum.map (fun e =>
    match e with
    | (i, (name, ty, dur)) =>
      { task_id := i
        task_name := name
        task_type := ty
        dependencies := []
        estimated_duration := dur
        assigned_team := map_task_type_to_team ty
        priority := max 1 (6 - i) })

/-- DAGGenerator.determine_primary_task_type (lines 853-858). -/
def determine_primary_task_type (a : Analysis) : String :=
  match a.task_types with
  | [] => "design"
  | t :: _ => if t != "general" then t else "design"

/-- The project template (generate_project_tasks, lines 553-590): (name,
type, base duration) per phase.  The "dependencies" entries of the Python
phase dicts are never passed to TaskNode and are dropped here too. -/
def project_phase_list (a : Analysis) : List (String × String × Nat) :=
  [ ("Project Planning", ("analysis", 25)),
    ("Concept Development", (determine_primary_task_type a, 40)),
    ("Design & Prototyping", ("design", 50)),
    ("Implementation", ("development", 70)),
    ("Quality Assurance", ("analysis", 35)),
    ("Documentation", ("content", 30)) ]

/-- The duration adjustment of generate_project_tasks (lines 597-598):
int(duration * {"simple": 0.7, "moderate": 1.0, "complex": 1.4}[complexity]).
The dict lookup raises KeyError on any other complexity tag (none here).
For the six template durations 25, 40, 50, 70, 35, 30 the IEEE-754 double
products truncate to exactly the rational values used here
(checked: 0.7 gives 17, 28, 35, 49, 24, 21 and 1.4 gives 35, 56, 70, 98,
49, 42 under Python float semantics). -/
def project_duration_mult (complexity : String) (d : Nat) : Option Nat :=
  if complexity == "simple" then some (7 * d / 10)
  else if complexity == "moderate" then some d
  else if complexity == "complex" then some (7 * d / 5)
  else none

/-- DAGGenerator.generate_project_tasks (lines 542-616):
priority = max(1, 7 - i); duration scaled by the complexity multiplier. -/
def generate_project_tasks (a : Analysis) : Option (List TaskNode) :=
  (project_phase_list a).enum.mapM (fun e =>
    match e with
    | (i, (name, ty, dur)) =>
      (project_duration_mult a.complexity dur).map (fun d =>
        { task_id := i
          task_name := name
          task_type := ty
          dependencies := []
          estimated_duration := d
          assigned_team := map_task_type_to_team ty
          priority := max 1 (7 - i) }))

/-- DAGGenerator.generate_sequence_tasks (lines 618-650).  Reads
task_types[0] and task_types[-1]; an empty task_types list would raise
IndexError (modelled none; the analyzer never returns an empty list).
Each task after the first depends on its immediate predecessor, recorded
in TaskNode.dependencies only - no graph edge is ever added for it. -/
def generate_sequence_tasks (a : Analysis) : Option (List TaskNode) :=
  match a.task_types with
  | [] => none
  | t0 :: rest =>
    let tlast := if rest.isEmpty then t0 else rest.getLast?.getD t0
    some
      [ { task_id := 0, task_name := "Task 1", task_type := t0,
          dependencies := [], estimated_duration := 30,
          assigned_team := map_task_type_to_team t0, priority := 5 },
        { task_id := 1, task_name := "Task 2", task_type := tlast,
          dependencies := [0], estimated_duration := 25,
          assigned_team := map_task_type_to_team tlast, priority := 5 },
        { task_id := 2, task_name := "Task 3", task_type := "analysis",
          dependencies := [1], estimated_duration := 20,
          assigned_team := map_task_type_to_team "analysis", priority := 5 } ]

/-- Helper for establish_dependencies: append dep to the dependency list of
every task whose type equals target_type (the Python for-loops over
design_tasks / dev_tasks mutate the task objects in place). -/
def add_dep_to_type (target_type : String) (dep : Nat) (ts : List TaskNode) :
    List TaskNode :=
  ts.map (fun t =>
    if t.task_type == target_type then
      { t with dependencies := t.dependencies ++ [dep] }
    else t)

/-- DAGGenerator.establish_dependencies (lines 652-678): the only edges
ever inserted into the graph.  Block 1: if both an "analysis"- and a
"design"-typed task exist, every design task depends on the first analysis
task; block 2: if both "design" and "development" exist, every development
task depends on the first design task.  Returns (updated tasks, edges in
insertion order).  Note that the per-task dependencies recorded at
generation time (sequence template) are never turned into edges. -/
def establish_dependencies (tasks : List TaskNode) :
    List TaskNode × List (Nat × Nat) :=
  let types := tasks.map (·.task_type)
  let step1 :=
    if types.contains "analysis" && types.contains "design" then
      match tasks.find? (fun t => t.task_type == "analysis") with
      | some a =>
        (add_dep_to_type "design" a.task_id tasks,
         (tasks.filter (fun t => t.task_type == "design")).map
           (fun t => (a.task_id, t.task_id)))
      | none => (tasks, ([] : List (Nat × Nat)))
    else (tasks, [])
  let tasks1 := step1.1
  let step2 :=
    if types.contains "design" && types.contains "development" then
      match tasks1.find? (fun t => t.task_type == "design") with
      | some d =>
        (add_dep_to_type "development" d.task_id tasks1,
         (tasks1.filter (fun t => t.task_type == "development")).map
           (fun t => (d.task_id, t.task_id)))
      | none => (tasks1, ([] : List (Nat × Nat)))
    else (tasks1, [])
  (step2.1, step1.2 ++ step2.2)

/-- Predecessors of n in edge insertion order (nx.DiGraph.predecessors). -/
def predecessors (edges : List (Nat × Nat)) (n : Nat) : List Nat :=
  (edges.filter (fun e => e.2 == n)).map (·.1)

/-- Kahn topological sort by generations, the order nx.topological_sort
produces (networkx topological_generations: within each generation, nodes
keep graph insertion order).  none on a cyclic graph, where networkx
raises NetworkXUnfeasible. -/
def topo_sort_go (edges : List (Nat × Nat)) : Nat → List Nat → Option (List Nat)
  | _, [] => some []
  | 0, _ :: _ => none
  | fuel + 1, remaining =>
    let ready := remaining.filter (fun n =>
      (predecessors edges n).all (fun p => !(remaining.contains p)))
    if ready.isEmpty then none
    else
      match topo_sort_go edges fuel
          (remaining.filter (fun n => !(ready.contains n))) with
      | some rest => some (ready ++ rest)
      | none => none

/-- Topological order of the node list, none when the graph has a cycle. -/
def topological_sort (nodes : List Nat) (edges : List (Nat × Nat)) :
    Option (List Nat) :=
  topo_sort_go edges nodes.length nodes

/-- Level lookup in the association list built in topological order
(the Python levels dict; .get(pred, 0) default). -/
def lookup_level (levels : List (Nat × Nat)) (n : Nat) : Option Nat :=
  (levels.find? (fun p => p.1 == n)).map (·.2)

/-- The level computation of calculate_execution_order (lines 687-693):
iterate nodes in topological order; level 0 without predecessors, else
max(levels.get(pred, 0)) + 1. -/
def compute_levels (edges : List (Nat × Nat)) (topo : List Nat) :
    List (Nat × Nat) :=
  topo.foldl (fun levels n =>
    let preds := predecessors edges n
    let lvl :=
      if preds.isEmpty then 0
      else (preds.map (fun p => (lookup_level levels p).getD 0)).foldl max 0 + 1
    levels ++ [(n, lvl)]) []

/-- Grouping by level in increasing level order (lines 696-702).  The
Python code collects a dict level -> nodes in first-seen order and emits
the groups for sorted level keys; listing levels 0..max and dropping empty
groups produces exactly that output. -/
def group_levels (levels : List (Nat × Nat)) : List (List Nat) :=
  let maxL := (levels.map (·.2)).foldl max 0
  ((List.range (maxL + 1)).map (fun l =>
    (levels.filter (fun p => p.2 == l)).map (·.1))).filter
      (fun g => !g.isEmpty)

/-- DAGGenerator.calculate_execution_order (lines 680-705).  On a cyclic
graph list(nx.topological_sort(..)) raises NetworkXUnfeasible; the
surrounding except clause names nx.NetworkXError, which NetworkXUnfeasible
is not a subclass of (networkx/exception.py derives it from
NetworkXAlgorithmError), so the written fallback return [list(graph.nodes())]
is unreachable and the library exception escapes: modelled as none. -/
def calculate_execution_order (nodes : List Nat) (edges : List (Nat × Nat)) :
    Option (List (List Nat)) :=
  match topological_sort nodes edges with
  | some topo => some (group_levels (compute_levels edges topo))
  | none => none

/-- Lookup in the dag_longest_path dist map: node to (path length, parent). -/
def lookup_dist (dist : List (Nat × Nat × Nat)) (n : Nat) : Option (Nat × Nat) :=
  (dist.find? (fun p => p.1 == n)).map (·.2)

/-- First maximum of a list of (value, payload) pairs; Python's max(..)
keeps the first element among ties. -/
def first_max (us : List (Nat × Nat)) : Option (Nat × Nat) :=
  us.foldl (fun acc p =>
    match acc with
    | none => some p
    | some q => if p.1 > q.1 then some p else some q) none

/-- The dist table of nx.dag_longest_path built in topological order:
dist[v] = (best predecessor distance + edge weight, best predecessor),
or (0, v) for a node without predecessors.  The call site passes
weight="estimated_duration", but the durations are stored as NODE
attributes and dag_longest_path reads EDGE attributes, so every edge
contributes default_weight 1: the path maximizes edge count, not
duration. -/
def build_dist (edges : List (Nat × Nat)) (topo : List Nat) :
    List (Nat × Nat × Nat) :=
  topo.foldl (fun dist v =>
    let us := (predecessors edges v).map (fun u =>
      (((lookup_dist dist u).map (·.1)).getD 0 + 1, u))
    match first_max us with
    | some lu => dist ++ [(v, lu)]
    | none => dist ++ [(v, (0, v))]) []

/-- Walk the dist parent pointers back from the chosen sink; Python stops
when a node is its own parent and reverses the collected path. -/
def walk_back (dist : List (Nat × Nat × Nat)) : Nat → Nat → List Nat
  | 0, v => [v]
  | fuel + 1, v =>
    let p := ((lookup_dist dist v).map (·.2)).getD v
    if p == v then [v] else walk_back dist fuel p ++ [v]

/-- The argmax of nx.dag_longest_path: the first node in topological order
whose dist value is maximal (Python max over the dict keeps the first). -/
def first_max_node (dist : List (Nat × Nat × Nat)) : Option Nat :=
  (dist.foldl (fun acc e =>
    match acc with
    | none => some (e.2.1, e.1)
    | some q => if e.2.1 > q.1 then some (e.2.1, e.1) else some q) none).map (·.2)

/-- DAGGenerator.calculate_critical_path (lines 707-722): returns [] for an
empty graph, else nx.dag_longest_path(graph, weight="estimated_duration").
Because the weight is read from edge attributes that were never set, each
edge counts 1 (see build_dist).  A cyclic graph raises NetworkXUnfeasible
inside dag_longest_path, which the except nx.NetworkXError clause does not
catch: modelled none. -/
def calculate_critical_path (nodes : List Nat) (edges : List (Nat × Nat)) :
    Option (List Nat) :=
  if nodes.isEmpty then some []
  else
    match topological_sort nodes edges with
    | none => none
    | some topo =>
      let dist := build_dist edges topo
      match first_max_node dist with
      | none => some []
      | some v => some (walk_back dist nodes.length v)

/-- DAGGenerator.find_parallelization_opportunities (lines 724-746): the
level groups holding more than one task.  Cyclic graphs raise as above. -/
def find_parallelization_opportunities (nodes : List Nat)
    (edges : List (Nat × Nat)) : Option (List (List Nat)) :=
  match topological_sort nodes edges with
  | some topo =>
    some ((group_levels (compute_levels edges topo)).filter
      (fun g => g.length > 1))
  | none => none

/-- Duration of a task id in a task map, 0 when absent (the code guards
with "if task_id in tasks"). -/
def duration_of (tasks : List (Nat × TaskNode)) (id : Nat) : Nat :=
  ((tasks.find? (fun p => p.1 == id)).map (·.2.estimated_duration)).getD 0

/-- DAGGenerator.calculate_total_duration (lines 748-763): sum of the
durations along the critical path; when the critical path is empty, the
sum of all task durations (which is 0 when there are no tasks). -/
def calculate_total_duration (tasks : List (Nat × TaskNode))
    (critical_path : List Nat) : Nat :=
  if critical_path.isEmpty then (tasks.map (·.2.estimated_duration)).sum
  else
    critical_path.foldl (fun acc id =>
      match tasks.find? (fun p => p.1 == id) with
      | some p => acc + p.2.estimated_duration
      | none => acc) 0

/-- The generated plan (class DAGPlan, lines 61-80), restricted to the
fields the claims concern.  plan_id / tenant_id / app_id / objective /
created_at and the free-text risk_factors / optimization_suggestions are
elided; tasks is the insertion-ordered id-to-node dict, dependencies the
per-task dependency lists as recorded on the nodes. -/
structure DAGPlan where
  plan_type : String
  tasks : List (Nat × TaskNode)
  dependencies : List (Nat × List Nat)
  execution_order : List (List Nat)
  total_estimated_duration : Nat
  critical_path : List Nat
  parallelization_opportunities : List (List Nat)
  deriving Repr, DecidableEq, Inhabited

/-- The template selection of generate_dag (lines 431-436): "workflow" and
"project" pick their templates, anything else falls to the sequence
template. -/
def template_tasks (a : Analysis) (plan_type : String) :
    Option (List TaskNode) :=
  if plan_type == "workflow" then some (generate_workflow_tasks a)
  else if plan_type == "project" then generate_project_tasks a
  else generate_sequence_tasks a

/-- DAGGenerator.generate_dag (lines 416-476): select the template by
plan_type, add all tasks as graph nodes, run establish_dependencies, then
compute execution order, critical path, parallelization and total
duration.  none models an exception escaping (unknown complexity for the
project template, empty task_types for the sequence template, or a cyclic
graph - the last never happens for generated graphs). -/
def generate_dag (a : Analysis) (plan_type : String) (_app_id : String) :
    Option DAGPlan :=
  match template_tasks a plan_type with
  | none => none
  | some tasks0 =>
    let nodes := tasks0.map (·.task_id)
    let te := establish_dependencies tasks0
    match calculate_execution_order nodes te.2 with
    | none => none
    | some execution_order =>
      match calculate_critical_path nodes te.2 with
      | none => none
      | some critical_path =>
        match find_parallelization_opportunities nodes te.2 with
        | none => none
        | some parallelization =>
          let task_map := te.1.map (fun t => (t.task_id, t))
          some
            { plan_type := plan_type
              tasks := task_map
              dependencies := te.1.map (fun t => (t.task_id, t.dependencies))
              execution_order := execution_order
              total_estimated_duration :=
                calculate_total_duration task_map critical_path
              critical_path := critical_path
              parallelization_opportunities := parallelization }

/-- Substring test on character lists: Python's "pat in s". -/
def infix_of (pat : List Char) : List Char → Bool
  | [] => pat.isEmpty
  | c :: rest => List.isPrefixOf pat (c :: rest) || infix_of pat rest

/-- Python's "pat in s" on strings. -/
def str_contains_sub (s pat : String) : Bool := infix_of pat.toList s.toList

/-- Python's str.lower(), on the character-list model of strings (ASCII
case folding; the analyzer's keywords and the objectives compared against
them are ASCII, where Python's Unicode lowercasing coincides). -/
def to_lower (s : String) : String := ⟨s.data.map Char.toLower⟩

/-- ObjectiveAnalyzer.task_patterns (lines 230-261): keyword lists paired
with the task_type they detect, in dict insertion order.  The per-pattern
team entries are never read. -/
def task_patterns : List (List String × String) :=
  [ (["analyze", "examine", "review", "evaluate", "assess", "audit"],
      "data_analysis"),
    (["design", "create", "generate", "build", "develop", "create"],
      "design_generation"),
    (["image", "visual", "photo", "picture", "vision", "recognize"],
      "computer_vision"),
    (["automate", "process", "workflow", "streamline", "optimize"],
      "workflow_automation"),
    (["medical", "health", "diagnosis", "clinical", "patient"],
      "medical_diagnosis"),
    (["content", "write", "text", "article", "copy", "social"],
      "content_creation") ]

/-- ObjectiveAnalyzer.detect_task_types (lines 337-345): the task types
whose keyword lists hit the (lowercased) objective, in pattern order;
["general"] when none hit. -/
def detect_task_types (objective : String) : List String :=
  let detected := (task_patterns.filter (fun p =>
    p.1.any (fun k => str_contains_sub objective k))).map (·.2)
  if detected.isEmpty then ["general"] else detected

/-- ObjectiveAnalyzer complexity_indicators (lines 349-353), dict order. -/
def complexity_indicators : List (String × List String) :=
  [ ("simple", ["simple", "basic", "quick", "easy", "straightforward"]),
    ("moderate", ["comprehensive", "detailed", "thorough", "complete"]),
    ("complex",
      ["complex", "advanced", "sophisticated", "comprehensive", "enterprise"]) ]

/-- ObjectiveAnalyzer.estimate_complexity (lines 347-359): the first
complexity level one of whose indicators occurs in the lowercased
objective, defaulting to "moderate". -/
def estimate_complexity (objective : String) : String :=
  match complexity_indicators.find? (fun p =>
    p.2.any (fun k => str_contains_sub (to_lower objective) k)) with
  | some p => p.1
  | none => "moderate"

/-- ObjectiveAnalyzer.analyze_objective (lines 287-309), restricted to the
fields the generator reads (see Analysis).  detect_task_types receives the
lowercased objective as in the source; the context argument is never read
by any of the analysis steps. -/
def analyze_objective (objective : String) : Analysis :=
  { task_types := detect_task_types (to_lower objective)
    complexity := estimate_complexity objective }

/-- Inbound plan request (class PlanRequest), fields the pipeline reads.
No field is validated anywhere: objective may be the empty string. -/
structure PlanRequest where
  objective : String
  plan_type : String
  app_id : String
  tenant_id : String
  deriving Repr, DecidableEq, Inhabited

/-- Outbound response (class PlanningResponse / lines 963-977), summary
fields.  parallel_execution_groups is set to len(dag_plan.execution_order)
at line 968. -/
structure PlanningResponse where
  status : String
  total_tasks : Nat
  estimated_total_duration : Nat
  parallel_execution_groups : Nat
  critical_path_length : Nat
  parallelization_opportunities : Nat
  deriving Repr, DecidableEq, Inhabited

/-- The observable persistence state of PlannerService.create_plan:
the event types appended to the event store in order, the plan ids
upserted into plan_read_model and the task ids upserted into
task_read_model. Event payloads and the remaining row columns carry no
information the claims refer to and are elided; the uuid4 plan id is
modelled by a fixed placeholder since only row existence matters. -/
structure ServiceState where
  events : List String
  plan_rows : List String
  task_rows : List Nat
  deriving Repr, DecidableEq, Inhabited

/-- PlannerService.create_plan (lines 892-997).  There is no request
validation: the first action is appending the PlanCreationStarted event;
then the objective is analyzed, the DAG generated, the plan and task
projection rows upserted, the PlanCreated event appended and a response
returned.  Any exception in between lands in the except-branch, which
appends PlanCreationFailed and re-raises as HTTP 500 (modelled: none). -/
def create_plan (req : PlanRequest) (st : ServiceState) :
    Option PlanningResponse × ServiceState :=
  let st1 := { st with events := st.events ++ ["PlanCreationStarted"] }
  let a := analyze_objective req.objective
  match generate_dag a req.plan_type req.app_id with
  | some plan =>
    let st2 := { st1 with
      plan_rows := st1.plan_rows ++ ["plan"]
      task_rows := st1.task_rows ++ plan.tasks.map Prod.fst }
    let st3 := { st2 with events := st2.events ++ ["PlanCreated"] }
    (some
      { status := "created"
        total_tasks := plan.tasks.length
        estimated_total_duration := plan.total_estimated_duration
        parallel_execution_groups := plan.execution_order.length
        critical_path_length := plan.critical_path.length
        parallelization_opportunities :=
          plan.parallelization_opportunities.length }, st3)
  | none =>
    (none, { st1 with events := st1.events ++ ["PlanCreationFailed"] })

end Planner

namespace Orch

/-- PlanningManager.team_capabilities of the orchestrator (clean_repo
backend orchestrator/main.py lines 202-233), reduced to the response_time
the duration estimator reads. -/
def team_capabilities : List (String × Nat) :=
  [ ("vision_computational", 30),
    ("creative_design", 45),
    ("business_automation", 60),
    ("healthcare_specialists", 90),
    ("marketing_creatives", 40) ]

/-- int(b * 0.7) under IEEE-754 doubles.  0.7 is not exactly representable
(it rounds to slightly below 0.7), so int(90 * 0.7) = int(62.999...) = 62;
for the other reachable bases 30, 40, 45, 60 the product truncates to
exactly the rational floor 7b/10 (40 * 0.7 rounds up to exactly 28.0). -/
def trunc_mul_07 (b : Nat) : Nat := if b == 90 then 62 else 7 * b / 10

/-- int(b * 0.9) under IEEE-754 doubles; coincides with the rational floor
for every reachable base (checked for 30, 40, 45, 60, 90). -/
def trunc_mul_09 (b : Nat) : Nat := 9 * b / 10

/-- int(b * 1.2) under IEEE-754 doubles; coincides with the rational floor
for every reachable base (checked for 30, 40, 45, 60, 90). -/
def trunc_mul_12 (b : Nat) : Nat := 12 * b / 10

/-- PlanningManager.estimate_duration (lines 343-355): base response time
of the team (60 when unknown), scaled by 0.7 for priority <= 2, 0.9 for
priority <= 5, 1.2 otherwise, truncated, with a floor of 10 seconds.  The
task_type argument is accepted and ignored, as in the source. -/
def estimate_duration (team_name : String) (_task_type : String)
    (priority : Int) : Nat :=
  let base := ((team_capabilities.find? (fun p => p.1 == team_name)).map
    (·.2)).getD 60
  let duration :=
    if priority ≤ 2 then trunc_mul_07 base
    else if priority ≤ 5 then trunc_mul_09 base
    else trunc_mul_12 base
  max duration 10

end Orch

namespace Spec

/-- Modelled from the spec: rounding of the product d·num/den to the
nearest integer ("durationSeconds = round(baseDuration ×
complexityMultiplier)"), used only to compare the spec's formula with the
code's truncation.  Round-half-up; every comparison made with it below has
an exact product, where all rounding conventions agree. -/
def round_mul (d num den : Nat) : Nat := (2 * d * num + den) / (2 * den)

/-- Modelled from the spec: the largest total duration of any path that
starts at the given node, where each node contributes its own duration
(fuel-bounded recursion over the successor relation). -/
def longest_from (edges : List (Nat × Nat)) (dur : Nat → Nat) :
    Nat → Nat → Nat
  | 0, n => dur n
  | fuel + 1, n =>
    let succs := (edges.filter (fun e => e.1 == n)).map (·.2)
    dur n + (succs.map (longest_from edges dur fuel)).foldl max 0

/-- Modelled from the spec: the maximum over all root-to-leaf paths of the
sum of task durations (the right-hand side of claim C2: "criticalPath
duration equals the maximum over all root-to-leaf path duration sums"). -/
def max_root_leaf_duration (nodes : List Nat) (edges : List (Nat × Nat))
    (dur : Nat → Nat) : Nat :=
  ((nodes.filter (fun n => (Planner.predecessors edges n).isEmpty)).map
    (fun n => longest_from edges dur nodes.length n)).foldl max 0

end Spec

namespace Planner

/-- A concrete analyzer output (the one produced for an objective without
any template keywords, e.g. the empty objective): generic task types,
moderate complexity. -/
def general_moderate : Analysis := ⟨["general"], "moderate"⟩

/-- The concrete plan generated from the workflow template for the generic
analysis, used to instantiate the universally quantified theorems. -/
def wf_plan : DAGPlan :=
  (generate_dag general_moderate "workflow" "app1").getD default

/-- The concrete plan generated from the project template for the generic
analysis. -/
def proj_plan : DAGPlan :=
  (generate_dag general_moderate "project" "app1").getD default

/-! Helper lemmas shared by several claims. -/

/-- Every value of the task-type-to-team mapping, and the default team,
is one of the five capability-table keys. -/
theorem map_task_type_to_team_mem (ty : String) :
    map_task_type_to_team ty ∈ team_names := by
  unfold map_task_type_to_team
  cases hf : task_type_team_mapping.find? (fun p => p.1 == ty) with
  | none => decide
  | some p =>
    have hp : p ∈ task_type_team_mapping := List.mem_of_find?_eq_some hf
    have hall : ∀ q ∈ task_type_team_mapping, q.2 ∈ team_names := by decide
    simpa using hall p hp

/-- Folding addition of g over a list starting from n sums the images. -/
theorem foldl_add_eq_sum_map (g : Nat → Nat) (l : List Nat) (n : Nat) :
    l.foldl (fun acc id => acc + g id) n = n + (l.map g).sum := by
  induction l generalizing n with
  | nil => simp
  | cons x xs ih => simp [ih, Nat.add_assoc]

/-- calculate_total_duration in closed form: the all-task sum when the
critical path is empty, otherwise the sum of the looked-up durations
along the path. -/
theorem calculate_total_duration_eq (tasks : List (Nat × TaskNode))
    (cp : List Nat) :
    calculate_total_duration tasks cp =
      if cp.isEmpty then (tasks.map (·.2.estimated_duration)).sum
      else (cp.map (duration_of tasks)).sum := by
  unfold calculate_total_duration
  split
  · rfl
  · have hext : cp.foldl (fun acc id =>
        match tasks.find? (fun p => p.1 == id) with
        | some p => acc + p.2.estimated_duration
        | none => acc) 0 =
        cp.foldl (fun acc id => acc + duration_of tasks id) 0 := by
      apply List.foldl_ext
      intro acc id _
      cases hf : tasks.find? (fun p => p.1 == id) with
      | none => simp [duration_of, hf]
      | some p => simp [duration_of, hf]
    rw [hext, foldl_add_eq_sum_map]
    simp

/-- add_dep_to_type changes only dependency lists, not assigned teams. -/
theorem add_dep_to_type_teams (ty : String) (d : Nat) (ts : List TaskNode) :
    (add_dep_to_type ty d ts).map (·.assigned_team) =
      ts.map (·.assigned_team) := by
  induction ts with
  | nil => rfl
  | cons t ts ih =>
    simp only [add_dep_to_type, List.map_cons] at ih ⊢
    congr 1
    split <;> rfl

/-- establish_dependencies changes only dependency lists and edges, not
the assigned teams of the tasks. -/
theorem establish_dependencies_teams (ts : List TaskNode) :
    ((establish_dependencies ts).1).map (·.assigned_team) =
      ts.map (·.assigned_team) := by
  unfold establish_dependencies
  dsimp only
  split
  · split
    · split
      · split <;> simp [add_dep_to_type_teams]
      · simp [add_dep_to_type_teams]
    · split
      · split <;> simp [add_dep_to_type_teams]
      · simp [add_dep_to_type_teams]
  · split
    · split <;> simp [add_dep_to_type_teams]
    · simp [add_dep_to_type_teams]

/-- Membership extraction through Option-valued mapM. -/
theorem mapM_option_mem {α β : Type} {f : α → Option β} :
    ∀ {l : List α} {ys : List β}, l.mapM f = some ys →
      ∀ y ∈ ys, ∃ x ∈ l, f x = some y := by
  intro l
  induction l with
  | nil =>
    intro ys h y hy
    simp only [List.mapM_nil, Option.pure_def, Option.some.injEq] at h
    subst h
    simp at hy
  | cons x xs ih =>
    intro ys h y hy
    simp only [List.mapM_cons, Option.pure_def, Option.bind_eq_bind,
      Option.bind_eq_some, Option.some.injEq] at h
    obtain ⟨b, hb, rest, hrest, rfl⟩ := h
    rcases List.mem_cons.mp hy with rfl | hmem
    · exact ⟨x, List.mem_cons_self x xs, hb⟩
    · obtain ⟨x', hx', hfx'⟩ := ih hrest y hmem
      exact ⟨x', List.mem_cons_of_mem x hx', hfx'⟩

/-- Inversion of generate_dag: a successful run fixes every plan field in
terms of the template tasks and the graph computations. -/
theorem generate_dag_inv (a : Analysis) (pt app : String) (plan : DAGPlan)
    (h : generate_dag a pt app = some plan) :
    ∃ ts0, template_tasks a pt = some ts0 ∧
      plan.tasks = ((establish_dependencies ts0).1).map
        (fun t => (t.task_id, t)) ∧
      plan.dependencies = ((establish_dependencies ts0).1).map
        (fun t => (t.task_id, t.dependencies)) ∧
      calculate_execution_order (ts0.map (·.task_id))
        (establish_dependencies ts0).2 = some plan.execution_order ∧
      calculate_critical_path (ts0.map (·.task_id))
        (establish_dependencies ts0).2 = some plan.critical_path ∧
      find_parallelization_opportunities (ts0.map (·.task_id))
        (establish_dependencies ts0).2 =
          some plan.parallelization_opportunities ∧
      plan.total_estimated_duration =
        calculate_total_duration plan.tasks plan.critical_path := by
  unfold generate_dag at h
  cases hts : template_tasks a pt with
  | none => rw [hts] at h; exact absurd h (by simp)
  | some ts0 =>
    rw [hts] at h
    dsimp only at h
    cases heo : calculate_execution_order (ts0.map (·.task_id))
        (establish_dependencies ts0).2 with
    | none => rw [heo] at h; exact absurd h (by simp)
    | some eo =>
      rw [heo] at h
      cases hcp : calculate_critical_path (ts0.map (·.task_id))
          (establish_dependencies ts0).2 with
      | none => rw [hcp] at h; exact absurd h (by simp)
      | some cp =>
        rw [hcp] at h
        cases hpar : find_parallelization_opportunities (ts0.map (·.task_id))
            (establish_dependencies ts0).2 with
        | none => rw [hpar] at h; exact absurd h (by simp)
        | some par =>
          rw [hpar] at h
          obtain rfl := (Option.some.inj h).symm
          exact ⟨ts0, rfl, rfl, rfl, heo, hcp, hpar, rfl⟩

end Planner

namespace Planner

/-- C1: the claim asserts every dependency edge u -> v recorded in the
plan satisfies level(u) < level(v), in particular for taskSequence plans.
The code records the sequence tasks' chain only in TaskNode.dependencies
and never inserts graph edges for it, so the generated task_sequence plan
puts all three tasks into level 0 although task 1 depends on task 0 and
task 2 on task 1: the levels of the endpoints of the recorded edges are
equal, not increasing.  This evaluation of the pipeline at the failing
input exhibits the violation. -/
theorem C1_sequence_dependencies_unordered :
    (generate_dag general_moderate "task_sequence" "app1").map
        (fun p => (p.execution_order, p.dependencies)) =
      some ([[0, 1, 2]], [(0, []), (1, [0]), (2, [1])]) := by decide

/-- C2: the claim asserts criticalPath maximizes the sum of task durations
over root-to-leaf paths.  calculate_critical_path passes
weight="estimated_duration" to nx.dag_longest_path, but durations live on
nodes while the weight is read from edge attributes, so each edge counts
1.  On the workflow plan the graph has no edges at all: the code returns
the single-node path [0] of duration 20 as critical path and total
duration, while the true maximum root-to-leaf duration is 60 (the
Implementation task alone). -/
theorem C2_critical_path_not_max_duration :
    (establish_dependencies (generate_workflow_tasks general_moderate)).2 =
      [] ∧
    (generate_dag general_moderate "workflow" "app1").map
        (fun p => (p.critical_path, p.total_estimated_duration)) =
      some ([0], 20) ∧
    Spec.max_root_leaf_duration
        ((generate_workflow_tasks general_moderate).map (·.task_id))
        (establish_dependencies (generate_workflow_tasks general_moderate)).2
        (duration_of ((generate_workflow_tasks general_moderate).map
          (fun t => (t.task_id, t)))) = 60 ∧
    (20 : Nat) ≠ 60 := by
  exact ⟨by decide, by decide, by decide, by decide⟩

/-- C3: the claim asserts a cycle-closing edge insertion fails with
DependencyCycleError at insertion time.  No DependencyCycleError exists
anywhere in the code and edges are inserted without any acyclicity check;
the cycle is only hit later, inside calculate_execution_order's
topological sort, which fails with a generic library error (modelled
none): a 2-cycle is accepted at insertion and the sort fails. -/
theorem C3_no_cycle_rejection_at_insertion :
    calculate_execution_order [0, 1] [(0, 1), (1, 0)] = none := by decide

/-- C4 counterexample: the workflow template tasks carry priorities
max(1, 6 - i) = 6,5,4,3,2, not 5,4,3,2,1 as the claim states. -/
theorem C4_counterexample :
    (generate_workflow_tasks general_moderate).map (·.priority) ≠
      [5, 4, 3, 2, 1] := by decide

/-- C4 amended: a workflow plan has exactly 5 tasks following the workflow
template in phase order, with priorities 6,5,4,3,2; and no dependency
chain is encoded: establish_dependencies inserts no edge for the workflow
template (its task types are analysis/workflow, and the heuristics fire
only for analysis-design and design-development pairs), so every task's
dependency list stays empty. -/
theorem C4_amended (a : Analysis) :
    (generate_workflow_tasks a).length = 5 ∧
    (generate_workflow_tasks a).map (·.task_name) =
      ["Requirements Gathering", "Process Analysis", "Workflow Design",
       "Implementation", "Testing & Validation"] ∧
    (generate_workflow_tasks a).map (·.priority) = [6, 5, 4, 3, 2] ∧
    (establish_dependencies (generate_workflow_tasks a)).2 = [] ∧
    ((establish_dependencies (generate_workflow_tasks a)).1).map
      (·.dependencies) = [[], [], [], [], []] :=
  ⟨rfl, rfl, rfl, rfl, rfl⟩

/-- C5 counterexample: with complexity "complex" the first workflow task
keeps its template duration 20, but round(20 x 1.4) = 28: tasks generated
from the workflow phase template never apply the complexity
multiplier. -/
theorem C5_counterexample :
    ((generate_workflow_tasks ⟨["general"], "complex"⟩).map
      (·.estimated_duration)).head? = some 20 ∧
    Spec.round_mul 20 14 10 = 28 ∧ (20 : Nat) ≠ 28 := by decide

/-- C5 amended: only the project template scales durations by the
complexity multiplier, truncating the float product with int() instead of
rounding; workflow and sequence template tasks keep their template
durations for every complexity.  For complexity "complex" the truncated
project durations coincide with round(base x 1.4) on all six template
durations; for "simple" truncation differs from rounding (17 vs 18 at
base 25). -/
theorem C5_amended (a : Analysis) :
    (generate_workflow_tasks a).map (·.estimated_duration) =
      [20, 30, 45, 60, 30] ∧
    (generate_sequence_tasks a).map (List.map (·.estimated_duration)) =
      (if a.task_types.isEmpty then none else some [30, 25, 20]) ∧
    (generate_project_tasks a).map (List.map (·.estimated_duration)) =
      (if a.complexity = "simple" then some [17, 28, 35, 49, 24, 21]
       else if a.complexity = "moderate" then some [25, 40, 50, 70, 35, 30]
       else if a.complexity = "complex" then some [35, 56, 70, 98, 49, 42]
       else none) ∧
    List.map (fun d => Spec.round_mul d 14 10) [25, 40, 50, 70, 35, 30] =
      [35, 56, 70, 98, 49, 42] := by
  obtain ⟨tts, comp⟩ := a
  refine ⟨rfl, ?_, ?_, by decide⟩
  · cases tts with
    | nil => rfl
    | cons t rest => rfl
  · by_cases h1 : comp = "simple"
    · subst h1; rfl
    · by_cases h2 : comp = "moderate"
      · subst h2; rfl
      · by_cases h3 : comp = "complex"
        · subst h3; rfl
        · rw [if_neg h1, if_neg h2, if_neg h3]
          have hm : ∀ d, project_duration_mult comp d = none := by
            intro d
            unfold project_duration_mult
            simp [h1, h2, h3]
          simp [generate_project_tasks, project_phase_list, List.enum, hm,
            List.mapM.loop]

end Planner

namespace Planner

/-- Successful create_plan in closed form: the response summarizing the
generated plan (parallel_execution_groups set to the number of execution
levels, as at source line 968) and the state with both events appended and
the plan/task rows upserted. -/
theorem create_plan_eq_some (req : PlanRequest) (st : ServiceState)
    (plan : DAGPlan)
    (h : generate_dag (analyze_objective req.objective) req.plan_type
      req.app_id = some plan) :
    create_plan req st =
      (some { status := "created"
              total_tasks := plan.tasks.length
              estimated_total_duration := plan.total_estimated_duration
              parallel_execution_groups := plan.execution_order.length
              critical_path_length := plan.critical_path.length
              parallelization_opportunities :=
                plan.parallelization_opportunities.length },
       { events := st.events ++ ["PlanCreationStarted", "PlanCreated"]
         plan_rows := st.plan_rows ++ ["plan"]
         task_rows := st.task_rows ++ plan.tasks.map Prod.fst }) := by
  unfold create_plan
  simp only [h, List.append_assoc]
  rfl

/-- The empty objective analyzes to the generic analysis, and plan
generation succeeds on it for every plan type. -/
theorem generate_dag_empty_objective (pt app : String) :
    (generate_dag (analyze_objective "") pt app).isSome = true := by
  have e : analyze_objective "" = general_moderate := by decide
  rw [e]
  by_cases h1 : pt = "workflow"
  · subst h1; rfl
  · by_cases h2 : pt = "project"
    · subst h2; rfl
    · have e1 : (pt == "workflow") = false := by simp [h1]
      have e2 : (pt == "project") = false := by simp [h2]
      have et : template_tasks general_moderate pt =
          generate_sequence_tasks general_moderate := by
        simp [template_tasks, e1, e2]
      unfold generate_dag
      rw [et]
      rfl

/-- Every task produced by any of the three templates carries a team
resolved through map_task_type_to_team. -/
theorem template_tasks_teams (a : Analysis) (pt : String)
    (ts : List TaskNode) (hts : template_tasks a pt = some ts) :
    ∀ t ∈ ts, t.assigned_team ∈ team_names := by
  unfold template_tasks at hts
  split at hts
  · obtain rfl := Option.some.inj hts
    intro t ht
    unfold generate_workflow_tasks at ht
    obtain ⟨e, -, rfl⟩ := List.mem_map.mp ht
    obtain ⟨i, name, ty, dur⟩ := e
    exact map_task_type_to_team_mem ty
  · split at hts
    · intro t ht
      obtain ⟨x, -, hfx⟩ := mapM_option_mem hts t ht
      obtain ⟨i, name, ty, dur⟩ := x
      simp only [Option.map_eq_some'] at hfx
      obtain ⟨d, -, rfl⟩ := hfx
      exact map_task_type_to_team_mem ty
    · unfold generate_sequence_tasks at hts
      cases hseq : a.task_types with
      | nil => rw [hseq] at hts; exact absurd hts (by simp)
      | cons t0 rest =>
        rw [hseq] at hts
        obtain rfl := Option.some.inj hts
        intro t ht
        simp only [List.mem_cons, List.not_mem_nil, or_false] at ht
        rcases ht with rfl | rfl | rfl
        · exact map_task_type_to_team_mem t0
        · exact map_task_type_to_team_mem
            (if rest.isEmpty then t0 else rest.getLast?.getD t0)
        · exact map_task_type_to_team_mem "analysis"

/-- C6: for every generated plan the total duration is the sum of the
durations of the tasks on the critical path; when the critical path is
empty it falls back to the sum of all task durations, which is 0 for an
empty task set. -/
theorem C6_total_duration (a : Analysis) (pt app : String) (plan : DAGPlan)
    (h : generate_dag a pt app = some plan) :
    (plan.critical_path ≠ [] →
      plan.total_estimated_duration =
        (plan.critical_path.map (duration_of plan.tasks)).sum) ∧
    (plan.critical_path = [] →
      plan.total_estimated_duration =
        (plan.tasks.map (·.2.estimated_duration)).sum) ∧
    (plan.tasks = [] → plan.total_estimated_duration = 0) := by
  obtain ⟨ts0, -, -, -, -, -, -, htot⟩ := generate_dag_inv a pt app plan h
  rw [htot, calculate_total_duration_eq]
  refine ⟨fun hne => ?_, fun he => ?_, fun htasks => ?_⟩
  · rw [if_neg (by simpa using hne)]
  · rw [if_pos (by simp [he])]
  · by_cases hcp : plan.critical_path.isEmpty
    · rw [if_pos hcp, htasks]
      rfl
    · rw [if_neg hcp]
      refine List.sum_eq_zero ?_
      intro x hx
      obtain ⟨id, -, rfl⟩ := List.mem_map.mp hx
      rw [htasks]
      rfl

/-- C6 witness: the workflow plan's nonempty critical path sums to its
total duration. -/
theorem C6_total_duration_witness :
    wf_plan.critical_path ≠ [] ∧
    wf_plan.total_estimated_duration =
      (wf_plan.critical_path.map (duration_of wf_plan.tasks)).sum :=
  ⟨by decide,
   (C6_total_duration general_moderate "workflow" "app1" wf_plan
      (by decide)).1 (by decide)⟩

/-- C7 counterexample: an empty-objective request is not rejected: the
pipeline appends PlanCreationStarted (and PlanCreated), upserts a plan
projection row and returns a successful response - there is no validation
and no side-effect-free failure. -/
theorem C7_counterexample :
    (create_plan ⟨"", "workflow", "app1", "t1"⟩ ⟨[], [], []⟩).2.events =
      ["PlanCreationStarted", "PlanCreated"] ∧
    (create_plan ⟨"", "workflow", "app1", "t1"⟩ ⟨[], [], []⟩).2.plan_rows =
      ["plan"] ∧
    ((create_plan ⟨"", "workflow", "app1", "t1"⟩ ⟨[], [], []⟩).1).isSome =
      true := by decide

/-- C7 amended: a plan-creation request with an empty objective is never
validated or rejected: for every plan type, create_plan appends
PlanCreationStarted and PlanCreated, upserts the plan projection row and
returns a response (the empty objective analyzes to the generic
task_types=["general"], complexity="moderate" analysis). -/
theorem C7_amended (req : PlanRequest) (st : ServiceState)
    (h : req.objective = "") :
    ((create_plan req st).1).isSome = true ∧
    (create_plan req st).2.events =
      st.events ++ ["PlanCreationStarted", "PlanCreated"] ∧
    (create_plan req st).2.plan_rows = st.plan_rows ++ ["plan"] := by
  obtain ⟨obj, pt, app, ten⟩ := req
  subst h
  obtain ⟨plan, hplan⟩ :=
    Option.isSome_iff_exists.mp (generate_dag_empty_objective pt app)
  rw [create_plan_eq_some ⟨"", pt, app, ten⟩ st plan hplan]
  exact ⟨rfl, rfl, rfl⟩

/-- C7 amended witness. -/
theorem C7_amended_witness :
    ((create_plan ⟨"", "zz", "app2", "t2"⟩ ⟨[], [], []⟩).1).isSome = true ∧
    (create_plan ⟨"", "zz", "app2", "t2"⟩ ⟨[], [], []⟩).2.events =
      [] ++ ["PlanCreationStarted", "PlanCreated"] ∧
    (create_plan ⟨"", "zz", "app2", "t2"⟩ ⟨[], [], []⟩).2.plan_rows =
      [] ++ ["plan"] :=
  C7_amended ⟨"", "zz", "app2", "t2"⟩ ⟨[], [], []⟩ rfl

/-- C8 counterexample: for the project plan of the generic analysis the
response reports 3 parallel execution groups (the number of execution
levels) while the plan has 2 parallel groups with more than one member. -/
theorem C8_counterexample :
    ((create_plan ⟨"", "project", "app1", "t1"⟩ ⟨[], [], []⟩).1).map
        (·.parallel_execution_groups) = some 3 ∧
    (generate_dag (analyze_objective "") "project" "app1").map
        (fun p => p.parallelization_opportunities.length) = some 2 ∧
    (3 : Nat) ≠ 2 := by decide

/-- C8 amended: the response's parallel_execution_groups field reports the
number of execution-order levels of the plan (len(execution_order), source
line 968), not the number of multi-member parallel groups. -/
theorem C8_amended (req : PlanRequest) (st : ServiceState) (plan : DAGPlan)
    (h : generate_dag (analyze_objective req.objective) req.plan_type
      req.app_id = some plan) :
    ((create_plan req st).1).map (·.parallel_execution_groups) =
      some plan.execution_order.length := by
  rw [create_plan_eq_some req st plan h]
  rfl

/-- C8 amended witness. -/
theorem C8_amended_witness :
    ((create_plan ⟨"", "project", "app1", "t1"⟩ ⟨[], [], []⟩).1).map
      (·.parallel_execution_groups) =
      some proj_plan.execution_order.length :=
  C8_amended ⟨"", "project", "app1", "t1"⟩ ⟨[], [], []⟩ proj_plan (by decide)

/-- C10: every task of every generated plan is assigned a team that is a
key of the static team-capability table (unmapped task types resolve to
the default business_automation, itself a key). -/
theorem C10_teams_in_capability_table (a : Analysis) (pt app : String)
    (plan : DAGPlan) (h : generate_dag a pt app = some plan) :
    ∀ p ∈ plan.tasks, p.2.assigned_team ∈ team_names := by
  obtain ⟨ts0, hts, htasks, -, -, -, -, -⟩ := generate_dag_inv a pt app plan h
  intro p hp
  rw [htasks] at hp
  obtain ⟨t, ht, rfl⟩ := List.mem_map.mp hp
  have hteam : t.assigned_team ∈ ts0.map (·.assigned_team) := by
    rw [← establish_dependencies_teams ts0]
    exact List.mem_map_of_mem _ ht
  obtain ⟨t0, ht0, hte⟩ := List.mem_map.mp hteam
  rw [← hte]
  exact template_tasks_teams a pt ts0 hts t0 ht0

/-- C10 witness: the first task of the workflow plan is assigned a
capability-table team. -/
theorem C10_witness :
    ({ task_id := 0, task_name := "Requirements Gathering",
       task_type := "analysis", dependencies := ([] : List Nat),
       estimated_duration := 20, assigned_team := "business_automation",
       priority := 6 } : TaskNode).assigned_team ∈ team_names :=
  C10_teams_in_capability_table general_moderate "workflow" "app1" wf_plan
    (by decide)
    (0, { task_id := 0, task_name := "Requirements Gathering",
          task_type := "analysis", dependencies := ([] : List Nat),
          estimated_duration := 20, assigned_team := "business_automation",
          priority := 6 })
    (by decide)

end Planner

namespace Orch

/-- Priority bracket monotonicity: truncated 0.7-scaling is at most
truncated 0.9-scaling of the same base. -/
theorem trunc_mul_07_le_09 (b : Nat) : trunc_mul_07 b ≤ trunc_mul_09 b := by
  unfold trunc_mul_07 trunc_mul_09
  by_cases hb : b = 90
  · subst hb; decide
  · rw [if_neg (by simpa using hb)]
    exact Nat.div_le_div_right (Nat.mul_le_mul_right b (by decide))

/-- Priority bracket monotonicity: truncated 0.9-scaling is at most
truncated 1.2-scaling of the same base. -/
theorem trunc_mul_09_le_12 (b : Nat) : trunc_mul_09 b ≤ trunc_mul_12 b :=
  Nat.div_le_div_right (Nat.mul_le_mul_right b (by decide))

/-- C9: estimate_duration is monotone in the numeric priority: for every
team and task type, a lower (more urgent) priority never yields a larger
estimate than a higher one; the brackets scale by 0.7, 0.9 and 1.2. -/
theorem C9_estimate_duration_monotone (team ty : String) (p q : Int)
    (h : p ≤ q) :
    estimate_duration team ty p ≤ estimate_duration team ty q := by
  unfold estimate_duration
  have h712 : ∀ b, trunc_mul_07 b ≤ trunc_mul_12 b := fun b =>
    le_trans (trunc_mul_07_le_09 b) (trunc_mul_09_le_12 b)
  by_cases hq2 : q ≤ 2
  · have hp2 : p ≤ 2 := le_trans h hq2
    simp [hp2, hq2]
  · by_cases hq5 : q ≤ 5
    · by_cases hp2 : p ≤ 2
      · simp only [hp2, hq2, hq5, if_true, if_false, ite_true, ite_false]
        exact max_le_max (trunc_mul_07_le_09 _) le_rfl
      · have hp5 : p ≤ 5 := le_trans h hq5
        simp [hp2, hp5, hq2, hq5]
    · by_cases hp2 : p ≤ 2
      · simp only [hp2, hq2, hq5, if_true, if_false, ite_true, ite_false]
        exact max_le_max (h712 _) le_rfl
      · by_cases hp5 : p ≤ 5
        · simp only [hp2, hp5, hq2, hq5, if_true, if_false, ite_true,
            ite_false]
          exact max_le_max (trunc_mul_09_le_12 _) le_rfl
        · simp [hp2, hp5, hq2, hq5]

/-- C9 witness: priority 1 gives an estimate at most that of priority 9
for the healthcare team. -/
theorem C9_witness :
    (1 : Int) ≤ 9 ∧
    estimate_duration "healthcare_specialists" "diag" 1 ≤
      estimate_duration "healthcare_specialists" "diag" 9 :=
  ⟨by decide,
   C9_estimate_duration_monotone "healthcare_specialists" "diag" 1 9
     (by decide)⟩

end Orch
